import Mathlib

/-!
Verification of the Socli social-network CLI (`App.py`, `neo4j_client.py`).

The client is embedded shallowly: every interactive command `do_x` of
`SocialNetworkCLI` becomes a pure Lean function.  Inputs that the Python code
reads from the terminal (`input`, `getpass.getpass`) are passed as explicit
string parameters; the answer the store would give to each Cypher query the
command may issue is passed as an `Option (List ρ)` parameter (`none` models
`execute_query` returning `None`, i.e. no driver or a query error).  Each
command returns the updated session state together with the ordered list of
side effects it performed: queries issued, terminal prompts shown, and lines
printed.  SHA-256 hashing is modelled by an abstract `hash` parameter, since
the code only ever compares digests for equality.
-/

/-- Python truthiness of an optional string (`None` and `""` are falsy),
used to model expressions such as `user['bio'] or 'No bio available'`. -/
def pyTruthy : Option String → Bool
  | none => false
  | some s => s ≠ ""

/-- Python `x or d` for an optional string `x` and default `d`. -/
def pyOr (x : Option String) (d : String) : String :=
  if pyTruthy x then x.getD d else d

/-- The session state of `SocialNetworkCLI`: the `current_user` field and the
`prompt` string (the only mutable local state the commands touch). -/
structure Session where
  currentUser : Option String
  prompt : String
deriving DecidableEq, Repr

/-- The parameterized Cypher queries the client can send, one constructor per
query text appearing in `App.py`, carrying the query parameters. -/
inductive Query where
  | matchUserByUsername (username : String)
  | matchUserByEmail (email : String)
  | createUser (username name email password b : String)
  | matchCredentials (username password : String)
  | fetchProfile (username : String)
  | countFollowers (username : String)
  | countFollowing (username : String)
  | fetchProfileFields (username : String)
  | emailCheckExcluding (email username : String)
  | setProfile (username : String) (name email : Option String) (b : String)
  | setPassword (username password : String)
  | detachDeleteUser (username : String)
  | matchFollowsEdge (me them : String)
  | createFollows (me them : String)
  | deleteFollows (me them : String)
  | listFollowers (username : String)
  | listFollowing (username : String)
  | recommendationsQ (me : String)
  | searchUsers (term : String)
  | popularUsers
  | mutualsQ (user1 user2 : String)
  | mutualPairs
deriving DecidableEq, Repr

/-- One observable side effect of a command: a query sent to the store, a
terminal prompt asking for input (`input` / `getpass`), or a printed line. -/
inductive Effect where
  | query (q : Query)
  | promptLine (msg : String)
  | promptSecret (msg : String)
  | print (msg : String)
deriving DecidableEq, Repr

/-- What the underlying neo4j driver does when `session.run` is attempted:
either it produces a list of records, or it raises an exception (any exception
of Python class `Exception`; every neo4j driver error is one). -/
inductive DriverOutcome (ρ : Type) where
  | rows (rs : List ρ)
  | raises
deriving DecidableEq, Repr

/-- `Neo4jConnection.execute_query` (identical in `neo4j_client.py` lines
138-175 and `App.py` lines 53-65): with no driver it prints and returns
`None`; a raised exception is caught and turned into `None`; otherwise it
returns the list of records. -/
def execute_query {ρ : Type} (driver : Bool) (outcome : DriverOutcome ρ) :
    Option (List ρ) :=
  if driver = false then none
  else
    match outcome with
    | .rows rs => some rs
    | .raises => none

/-! ### The email regular expression

`App.py` validates emails with `re.match(r"[^@]+@[^@]+\.[^@]+", email)`:
an unanchored-at-the-end match of `[^@]+`, `@`, `[^@]+`, `.`, `[^@]+`
against a prefix of the string. -/

/-- A character admitted by the `[^@]` character class. -/
def nonAt (c : Char) : Bool := c ≠ '@'

/-- Backtracking matcher for `p+` followed by a continuation `k`: consume one
or more characters satisfying `p`, then let `k` match the rest. -/
def plusThen (p : Char → Bool) (k : List Char → Bool) : List Char → Bool
  | [] => false
  | c :: rest => p c && (k rest || plusThen p k rest)

/-- Matcher for a literal character followed by a continuation `k`. -/
def charThen (c : Char) (k : List Char → Bool) : List Char → Bool
  | [] => false
  | d :: rest => (d == c) && k rest

/-- `re.match(r"[^@]+@[^@]+\.[^@]+", s)` is truthy: some prefix of `s`
matches the atom sequence `[^@]+`, `@`, `[^@]+`, `.`, `[^@]+`. -/
def emailRegexMatch (s : String) : Bool :=
  plusThen nonAt (charThen '@' (plusThen nonAt (charThen '.'
    (plusThen nonAt (fun _ => true))))) s.toList

/-- The email shape exactly as the specification words it: at least one
character, then `@`, then at least one character, then `.`, then at least one
character (no constraint on which characters). -/
def specEmailShape (s : String) : Prop :=
  ∃ a b c : String, a ≠ "" ∧ b ≠ "" ∧ c ≠ "" ∧ s = a ++ "@" ++ b ++ "." ++ c

/-- The shape actually accepted by the regex: a decomposition
`a ++ "@" ++ b ++ "." ++ c :: rest` of the character list where `a` and `b`
are nonempty and free of `@`, and the character after the dot is not `@`. -/
def regexEmailShape (s : String) : Prop :=
  ∃ (a b : List Char) (c : Char) (rest : List Char),
    a ≠ [] ∧ b ≠ [] ∧ (∀ x ∈ a, x ≠ '@') ∧ (∀ x ∈ b, x ≠ '@') ∧ c ≠ '@' ∧
    s.toList = a ++ '@' :: (b ++ '.' :: c :: rest)

/-! ### Python string helpers -/

/-- Python `str.strip()` (whitespace from both ends). -/
def pyStrip (s : String) : String :=
  ⟨((s.data.dropWhile Char.isWhitespace).reverse.dropWhile Char.isWhitespace).reverse⟩

/-- Python `str.lower()`. -/
def pyLower (s : String) : String := ⟨s.data.map Char.toLower⟩

/-- How a Python f-string renders an optional value (`None` renders as the
string `"None"`). -/
def pyShow : Option String → String
  | some s => s
  | none => "None"

/-- Python `enumerate(xs, i)`. -/
def pyEnum {ρ : Type} (i : Nat) : List ρ → List (Nat × ρ)
  | [] => []
  | x :: xs => (i, x) :: pyEnum (i + 1) xs

/-! ### Row types

Each Cypher query of `App.py` returns rows with fixed named fields; each row
type below carries exactly the fields the command reads, every property value
being optional because a node property can be absent (`null`). -/

/-- A row of the `profile` query: `username`, `name`, `email`, `bio`,
`joinDate`. -/
structure ProfileRow where
  username : Option String
  name : Option String
  email : Option String
  bio : Option String
  joinDate : Option String
deriving DecidableEq, Repr

/-- A row of the `edit_profile` fetch query: `name`, `email`, `bio`. -/
structure EditRow where
  name : Option String
  email : Option String
  bio : Option String
deriving DecidableEq, Repr

/-! ### The commands

Each `do_x` method of `SocialNetworkCLI` becomes a function
`(connection present) → (session) → (terminal inputs) → (query answers) →
Session × List Effect`. -/

/-- `SocialNetworkCLI.do_register`. -/
def do_register (conn : Bool) (s : Session)
    (usernameInput nameInput emailInput password confirmPassword : String)
    (usernameCheckRes emailCheckRes createRes : Option (List Unit))
    (hash : String → String) : Session × List Effect :=
  if conn = false then
    (s, [.print "Database connection is not available. Cannot register."])
  else
    let eff0 : List Effect :=
      [.print "\n=== User Registration ===\n", .promptLine "Username: "]
    let username := pyStrip usernameInput
    if username = "" then (s, eff0 ++ [.print "Username cannot be empty."])
    else
      let eff1 := eff0 ++ [.query (.matchUserByUsername username)]
      match usernameCheckRes with
      | some (_ :: _) =>
          (s, eff1 ++ [.print ("Username '" ++ username ++ "' is already taken.")])
      | _ =>
        let eff2 := eff1 ++ [.promptLine "Full Name: ", .promptLine "Email: "]
        let name := pyStrip nameInput
        let email := pyStrip emailInput
        if emailRegexMatch email = false then
          (s, eff2 ++ [.print "Invalid email format."])
        else
          let eff3 := eff2 ++ [.query (.matchUserByEmail email)]
          match emailCheckRes with
          | some (_ :: _) =>
              (s, eff3 ++ [.print ("Email '" ++ email ++ "' is already registered.")])
          | _ =>
            let eff4 := eff3 ++ [.promptSecret "Password: "]
            if password = "" then (s, eff4 ++ [.print "Password cannot be empty."])
            else
              let eff5 := eff4 ++ [.promptSecret "Confirm Password: "]
              if password ≠ confirmPassword then
                (s, eff5 ++ [.print "Passwords do not match."])
              else
                let eff6 := eff5 ++
                  [.query (.createUser username name email (hash password) "")]
                match createRes with
                | some (_ :: _) =>
                    (s, eff6 ++ [.print ("\nUser '" ++ username ++
                      "' registered successfully! You can now login.")])
                | _ => (s, eff6 ++ [.print "Failed to register user. Please try again."])

/-- `SocialNetworkCLI.do_login`. -/
def do_login (conn : Bool) (s : Session) (arg usernameInput password : String)
    (credRes : Option (List Unit)) (hash : String → String) :
    Session × List Effect :=
  if conn = false then
    (s, [.print "Database connection is not available. Cannot login."])
  else if pyTruthy s.currentUser then
    (s, [.print ("You're already logged in as " ++ pyShow s.currentUser ++ ".")])
  else
    let username := if arg ≠ "" then pyStrip arg else pyStrip usernameInput
    let eff0 : List Effect := if arg ≠ "" then [] else [.promptLine "Username: "]
    if username = "" then (s, eff0 ++ [.print "Username cannot be empty."])
    else
      let eff1 := eff0 ++ [.promptSecret "Password: ",
        .query (.matchCredentials username (hash password))]
      match credRes with
      | some (_ :: _) =>
          ({ currentUser := some username, prompt := username ++ "> " },
           eff1 ++ [.print ("Welcome back, " ++ username ++ "!")])
      | _ => (s, eff1 ++ [.print "Invalid username or password."])

/-- `SocialNetworkCLI.do_logout`. -/
def do_logout (s : Session) : Session × List Effect :=
  if pyTruthy s.currentUser = false then (s, [.print "You're not logged in."])
  else
    ({ currentUser := none, prompt := "socli> " },
     [.print ("Goodbye, " ++ pyShow s.currentUser ++ "!")])

/-- `SocialNetworkCLI.do_profile`. -/
def do_profile (conn : Bool) (s : Session) (arg : String)
    (profileRes : Option (List ProfileRow))
    (followersRes followingRes : Option (List Nat)) : Session × List Effect :=
  if conn = false then (s, [.print "Database connection is not available."])
  else
    let uname : Option String :=
      if arg ≠ "" then some (pyStrip arg)
      else if pyTruthy s.currentUser then s.currentUser
      else none
    match uname with
    | none => (s, [.print "Please login first or specify a username."])
    | some username =>
      let eff1 : List Effect := [.query (.fetchProfile username)]
      match profileRes with
      | none => (s, eff1 ++ [.print ("User '" ++ username ++ "' not found.")])
      | some [] => (s, eff1 ++ [.print ("User '" ++ username ++ "' not found.")])
      | some (user :: _) =>
        let eff2 := eff1 ++
          [.print "\n=== User Profile ===",
           .print ("Username: " ++ pyShow user.username),
           .print ("Name: " ++ pyShow user.name)] ++
          (if pyTruthy s.currentUser && (s.currentUser == some username) then
            [.print ("Email: " ++ pyShow user.email)]
           else []) ++
          [.print ("Bio: " ++ pyOr user.bio "No bio available")] ++
          (if pyTruthy user.joinDate then
            [.print ("Joined: " ++ pyShow user.joinDate)]
           else [])
        let eff3 := eff2 ++ [.query (.countFollowers username)] ++
          (match followersRes with
           | some (c :: _) => [.print ("Followers: " ++ toString c)]
           | some [] => []
           | none => [])
        let eff4 := eff3 ++ [.query (.countFollowing username)] ++
          (match followingRes with
           | some (c :: _) => [.print ("Following: " ++ toString c)]
           | some [] => []
           | none => [])
        (s, eff4 ++ [.print ""])

/-- The `name` value `do_edit_profile` passes to its `SET` query: the trimmed
input if nonempty, otherwise the fetched `name`. -/
def editName (current : EditRow) (nameInput : String) : Option String :=
  if pyStrip nameInput = "" then current.name else some (pyStrip nameInput)

/-- The `email` value `do_edit_profile` passes to its `SET` query: the
trimmed input when it is nonempty, regex-valid and the uniqueness check
query returned no row, otherwise the fetched `email`. -/
def editEmail (current : EditRow) (emailInput : String)
    (emailCheckRes : Option (List Unit)) : Option String :=
  let e := pyStrip emailInput
  if e = "" then current.email
  else if emailRegexMatch e = false then current.email
  else
    match emailCheckRes with
    | some (_ :: _) => current.email
    | _ => some e

/-- The `bio` value `do_edit_profile` passes to its `SET` query: the trimmed
input if nonempty, otherwise `current['bio'] or ""`. -/
def editBio (current : EditRow) (bioInput : String) : String :=
  if pyStrip bioInput = "" then pyOr current.bio "" else pyStrip bioInput

/-- `SocialNetworkCLI.do_edit_profile`. -/
def do_edit_profile (conn : Bool) (s : Session)
    (fetchRes : Option (List EditRow))
    (nameInput emailInput bioInput : String)
    (emailCheckRes updateRes : Option (List Unit)) : Session × List Effect :=
  if conn = false then (s, [.print "Database connection is not available."])
  else if pyTruthy s.currentUser = false then
    (s, [.print "Please login first to edit your profile."])
  else
    let me := pyShow s.currentUser
    let eff1 : List Effect :=
      [.print "\n=== Edit Profile ===\n", .query (.fetchProfileFields me)]
    match fetchRes with
    | none => (s, eff1 ++ [.print "Failed to retrieve your profile."])
    | some [] => (s, eff1 ++ [.print "Failed to retrieve your profile."])
    | some (current :: _) =>
      let eff2 := eff1 ++
        [.print ("Current name: " ++ pyShow current.name),
         .promptLine "New name (leave blank to keep current): ",
         .print ("Current email: " ++ pyShow current.email),
         .promptLine "New email (leave blank to keep current): "]
      let e := pyStrip emailInput
      let eff3 := eff2 ++
        (if e ≠ "" then
          if emailRegexMatch e = false then
            [.print "Invalid email format. Email not updated."]
          else
            [.query (.emailCheckExcluding e me)] ++
            (match emailCheckRes with
             | some (_ :: _) =>
                [.print ("Email '" ++ e ++ "' is already in use. Email not updated.")]
             | _ => [])
         else [])
      let eff4 := eff3 ++
        [.print ("Current bio: " ++ pyOr current.bio "No bio available"),
         .promptLine "New bio (leave blank to keep current): ",
         .query (.setProfile me (editName current nameInput)
           (editEmail current emailInput emailCheckRes) (editBio current bioInput))]
      match updateRes with
      | some (_ :: _) => (s, eff4 ++ [.print "\nProfile updated successfully!"])
      | _ => (s, eff4 ++ [.print "Failed to update profile."])

/-- `SocialNetworkCLI.do_change_password`. -/
def do_change_password (conn : Bool) (s : Session)
    (currentPassword newPassword confirmPassword : String)
    (verifyRes updateRes : Option (List Unit)) (hash : String → String) :
    Session × List Effect :=
  if conn = false then (s, [.print "Database connection is not available."])
  else if pyTruthy s.currentUser = false then
    (s, [.print "Please login first to change your password."])
  else
    let me := pyShow s.currentUser
    let eff1 : List Effect := [.promptSecret "Current password: ",
      .query (.matchCredentials me (hash currentPassword))]
    match verifyRes with
    | none => (s, eff1 ++ [.print "Current password is incorrect."])
    | some [] => (s, eff1 ++ [.print "Current password is incorrect."])
    | some (_ :: _) =>
      let eff2 := eff1 ++ [.promptSecret "New password: "]
      if newPassword = "" then (s, eff2 ++ [.print "Password cannot be empty."])
      else
        let eff3 := eff2 ++ [.promptSecret "Confirm new password: "]
        if newPassword ≠ confirmPassword then
          (s, eff3 ++ [.print "Passwords do not match."])
        else
          let eff4 := eff3 ++ [.query (.setPassword me (hash newPassword))]
          match updateRes with
          | some (_ :: _) => (s, eff4 ++ [.print "Password changed successfully!"])
          | _ => (s, eff4 ++ [.print "Failed to change password."])

/-- `SocialNetworkCLI.do_delete`. -/
def do_delete (s : Session) (password confirmPassword confirmDeletion : String)
    (credRes deleteRes : Option (List Unit)) (hash : String → String) :
    Session × List Effect :=
  if pyTruthy s.currentUser = false then (s, [.print "Please login first"])
  else
    let me := pyShow s.currentUser
    let eff1 : List Effect := [.promptSecret "Password: ",
      .promptSecret "Confirm Password: "]
    if hash password ≠ hash confirmPassword then
      (s, eff1 ++ [.print "Passwords didn't match"])
    else
      let eff2 := eff1 ++ [.query (.matchCredentials me (hash password))]
      match credRes with
      | some (_ :: _) =>
        let eff3 := eff2 ++ [.promptLine "Confirm you want to delete by typing yes: "]
        if confirmDeletion = "" ∨ confirmDeletion ≠ "yes" then
          (s, eff3 ++ [.print "Cancelling user deletion"])
        else
          let eff4 := eff3 ++ [.query (.detachDeleteUser me)]
          match deleteRes with
          | some _ =>
              ({ currentUser := none, prompt := "social> " },
               eff4 ++ [.print ("User " ++ me ++ " successfully deleted!")])
          | none => (s, eff4 ++ [.print "Failed to delete user."])
      | _ => (s, eff2)

/-- `SocialNetworkCLI.do_follow`. -/
def do_follow (conn : Bool) (s : Session) (arg : String)
    (userExistsRes : Option (List Unit))
    (alreadyRes : Option (List (Option String)))
    (createRes : Option (List Unit)) : Session × List Effect :=
  if conn = false then (s, [.print "Database connection is not available."])
  else if pyTruthy s.currentUser = false then (s, [.print "Please login first."])
  else
    let me := pyShow s.currentUser
    let username := pyStrip arg
    if username = "" then (s, [.print "Please specify a username to follow."])
    else if username = me then (s, [.print "You cannot follow yourself."])
    else
      let eff1 : List Effect := [.query (.matchUserByUsername username)]
      match userExistsRes with
      | none => (s, eff1 ++ [.print ("User '" ++ username ++ "' not found.")])
      | some [] => (s, eff1 ++ [.print ("User '" ++ username ++ "' not found.")])
      | some (_ :: _) =>
        let eff2 := eff1 ++ [.query (.matchFollowsEdge me username)]
        match alreadyRes with
        | some (since :: _) =>
            (s, eff2 ++ [.print ("You're already following " ++ username ++
              " since " ++ pyOr since "earlier" ++ ".")])
        | _ =>
            (s, eff2 ++ [.query (.createFollows me username),
              .print ("You're now following " ++ username ++ ".")])

/-- `SocialNetworkCLI.do_unfollow`. -/
def do_unfollow (conn : Bool) (s : Session) (arg : String)
    (checkRes : Option (List Unit)) (confirm : String)
    (deleteRes : Option (List Unit)) : Session × List Effect :=
  if conn = false then (s, [.print "Database connection is not available."])
  else if pyTruthy s.currentUser = false then (s, [.print "Please login first."])
  else
    let me := pyShow s.currentUser
    let username := pyStrip arg
    if username = "" then (s, [.print "Please specify a username to unfollow."])
    else
      let eff1 : List Effect := [.query (.matchFollowsEdge me username)]
      match checkRes with
      | none => (s, eff1 ++ [.print ("You are not following " ++ username ++ ".")])
      | some [] => (s, eff1 ++ [.print ("You are not following " ++ username ++ ".")])
      | some (_ :: _) =>
        let eff2 := eff1 ++
          [.promptLine ("Unfollow " ++ username ++ "? Type 'yes' to confirm: ")]
        if pyLower confirm ≠ "yes" then (s, eff2 ++ [.print "Cancelled."])
        else
          (s, eff2 ++ [.query (.deleteFollows me username),
            .print ("You've unfollowed " ++ username ++ ".")])

/-- `SocialNetworkCLI.do_followers`. -/
def do_followers (conn : Bool) (s : Session) (arg : String)
    (res : Option (List (String × Option String))) : Session × List Effect :=
  if conn = false then (s, [.print "Database connection is not available."])
  else
    let uOpt : Option String :=
      if pyStrip arg ≠ "" then some (pyStrip arg) else s.currentUser
    if pyTruthy uOpt = false then
      (s, [.print "Please login or specify a username."])
    else
      let username := pyShow uOpt
      let eff1 : List Effect := [.query (.listFollowers username)]
      match res with
      | some (r :: rs) =>
          (s, eff1 ++ [.print ("\nFollowers of " ++ username ++ ":")] ++
            (pyEnum 1 (r :: rs)).map (fun p =>
              .print (toString p.1 ++ ". " ++ p.2.1 ++ " (" ++ pyShow p.2.2 ++ ")")))
      | _ => (s, eff1 ++ [.print ("No one follows " ++ username ++ ".")])

/-- `SocialNetworkCLI.do_following`. -/
def do_following (conn : Bool) (s : Session) (arg : String)
    (res : Option (List (String × Option String))) : Session × List Effect :=
  if conn = false then (s, [.print "Database connection is not available."])
  else
    let uOpt : Option String :=
      if pyStrip arg ≠ "" then some (pyStrip arg) else s.currentUser
    if pyTruthy uOpt = false then
      (s, [.print "Please login or specify a username."])
    else
      let username := pyShow uOpt
      let eff1 : List Effect := [.query (.listFollowing username)]
      match res with
      | some (r :: rs) =>
          (s, eff1 ++ [.print ("\n" ++ username ++ " is following:")] ++
            (pyEnum 1 (r :: rs)).map (fun p =>
              .print (toString p.1 ++ ". " ++ p.2.1 ++ " (" ++ pyShow p.2.2 ++ ")")))
      | _ => (s, eff1 ++ [.print (username ++ " is not following anyone.")])

/-- `SocialNetworkCLI.do_recommendations`. -/
def do_recommendations (conn : Bool) (s : Session)
    (res : Option (List (String × Option String × Nat))) : Session × List Effect :=
  if conn = false then (s, [.print "Database connection is not available."])
  else if pyTruthy s.currentUser = false then (s, [.print "Please login first."])
  else
    let me := pyShow s.currentUser
    let eff1 : List Effect := [.query (.recommendationsQ me)]
    match res with
    | some (r :: rs) =>
        (s, eff1 ++ [.print "\nPeople You May Know:"] ++
          (pyEnum 1 (r :: rs)).map (fun p =>
            .print (toString p.1 ++ ". " ++ p.2.1 ++ " (" ++ pyShow p.2.2.1 ++
              ") – " ++ toString p.2.2.2 ++ " mutual connection(s)")))
    | _ => (s, eff1 ++ [.print "No recommendations available."])

/-- `SocialNetworkCLI.do_search`. -/
def do_search (conn : Bool) (s : Session) (arg termInput : String)
    (res : Option (List (String × Option String))) : Session × List Effect :=
  if conn = false then (s, [.print "Database connection is not available."])
  else
    let t0 := pyStrip arg
    let eff0 : List Effect :=
      if t0 = "" then [.promptLine "Enter name or username to search: "] else []
    let term := if t0 = "" then pyStrip termInput else t0
    if term = "" then (s, eff0 ++ [.print "Search term cannot be empty."])
    else
      let eff1 := eff0 ++ [.query (.searchUsers term)]
      match res with
      | some (r :: rs) =>
          (s, eff1 ++ [.print "\n=== Search Results ==="] ++
            (pyEnum 1 (r :: rs)).map (fun p =>
              .print (toString p.1 ++ ". " ++ p.2.1 ++ " (" ++ pyShow p.2.2 ++ ")")) ++
            [.print ""])
      | _ => (s, eff1 ++ [.print "No matching users found."])

/-- `SocialNetworkCLI.do_popular`. -/
def do_popular (conn : Bool) (s : Session)
    (res : Option (List (String × Option String × Nat))) : Session × List Effect :=
  if conn = false then (s, [.print "Database connection is not available."])
  else
    let eff1 : List Effect := [.query .popularUsers]
    match res with
    | some (r :: rs) =>
        (s, eff1 ++ [.print "\n=== Most Followed Users ==="] ++
          (pyEnum 1 (r :: rs)).map (fun p =>
            .print (toString p.1 ++ ". " ++ p.2.1 ++ " (" ++ pyShow p.2.2.1 ++
              ") - " ++ toString p.2.2.2 ++ " followers")) ++
          [.print ""])
    | _ => (s, eff1 ++ [.print "Failed to retrieve popular users."])

/-- `SocialNetworkCLI.do_mutuals`. -/
def do_mutuals (conn : Bool) (s : Session) (arg : String)
    (res : Option (List String)) : Session × List Effect :=
  if conn = false then (s, [.print "Database connection is not available."])
  else if pyTruthy s.currentUser = false then (s, [.print "Please login first."])
  else
    let me := pyShow s.currentUser
    let other := pyStrip arg
    if other = "" then (s, [.print "Usage: mutuals <username>"])
    else if other = me then (s, [.print "Cannot check mutuals with yourself."])
    else
      let eff1 : List Effect := [.query (.mutualsQ me other)]
      match res with
      | none => (s, eff1 ++ [.print "Failed to retrieve mutuals."])
      | some [] => (s, eff1 ++ [.print ("No mutuals found with " ++ other ++ ".")])
      | some (r :: rs) =>
          (s, eff1 ++ [.print ("\n=== Mutuals with " ++ other ++ " ===")] ++
            (pyEnum 1 (r :: rs)).map (fun p =>
              .print (toString p.1 ++ ". " ++ p.2)) ++
            [.print ""])

/-- `SocialNetworkCLI.do_debug_mutual_pairs`. -/
def do_debug_mutual_pairs (s : Session)
    (res : Option (List (String × String))) : Session × List Effect :=
  let eff1 : List Effect := [.query .mutualPairs]
  match res with
  | some (r :: rs) =>
      (s, eff1 ++ [.print "\n=== Sample Mutual Follower Pairs ==="] ++
        (pyEnum 1 (r :: rs)).map (fun p =>
          .print (toString p.1 ++ ". " ++ p.2.1 ++ " ↔ " ++ p.2.2)))
  | _ => (s, eff1 ++ [.print "No mutual follow pairs found."])

/-! ### Graph-store semantics

The store owns the `FOLLOWS` edges.  A store state is the list of directed
edges `(follower, followee)` between usernames.  The `recommendations`
Cypher query (`App.py` lines 683-689) is translated below: match the
two-hop pattern `(me)-[:FOLLOWS]->(x)-[:FOLLOWS]->(rec)`, keep `rec` with
`rec.username <> $me` and no direct `(me)-[:FOLLOWS]->(rec)` edge, group by
`rec` counting matched paths, order by count descending then username
ascending, and return at most 5 rows.  (The query also returns `rec.name`
for display; grouping is by the user node, so the username, unique by store
constraint, determines the row.) -/

/-- A directed `FOLLOWS` edge `(follower, followee)`. -/
abbrev Edge := String × String

/-- All targets of the two-hop pattern
`(me)-[:FOLLOWS]->(x)-[:FOLLOWS]->(rec)`, one occurrence per matched path. -/
def twoHopTargets (follows : List Edge) (me : String) : List String :=
  (follows.filter (fun e => e.1 == me)).flatMap
    (fun e => ((follows.filter (fun f => f.1 == e.2)).map (fun f => f.2)))

/-- The `WHERE rec.username <> $me AND NOT (me)-[:FOLLOWS]->(rec)` filter. -/
def recCandidates (follows : List Edge) (me : String) : List String :=
  (twoHopTargets follows me).filter
    (fun r => r != me && !(follows.contains (me, r)))

/-- `RETURN rec.username, COUNT(*)`: one row per distinct candidate with the
number of connecting two-hop paths. -/
def recRows (follows : List Edge) (me : String) : List (String × Nat) :=
  ((recCandidates follows me).dedup).map
    (fun r => (r, (recCandidates follows me).count r))

/-- Lexicographic "less or equal" on character lists, the order behind
`ORDER BY username`. -/
def lexLe : List Char → List Char → Bool
  | [], _ => true
  | _ :: _, [] => false
  | c :: cs, d :: ds => if c < d then true else if d < c then false else lexLe cs ds

/-- The row comparator of `ORDER BY mutuals DESC, username`: higher count
first, ties by username ascending. -/
def recLeb (a b : String × Nat) : Bool :=
  decide (b.2 < a.2) || (a.2 == b.2 && lexLe a.1.data b.1.data)

/-- Insert a row into a list sorted by `recLeb`. -/
def insertRec (x : String × Nat) : List (String × Nat) → List (String × Nat)
  | [] => [x]
  | y :: ys => if recLeb x y then x :: y :: ys else y :: insertRec x ys

/-- Sort rows by `recLeb` (the `ORDER BY` clause). -/
def sortRec : List (String × Nat) → List (String × Nat)
  | [] => []
  | x :: xs => insertRec x (sortRec xs)

/-- The full result of the `recommendations` query: rows sorted by
`ORDER BY mutuals DESC, username`, capped by `LIMIT 5`. -/
def recommendationsQuery (follows : List Edge) (me : String) :
    List (String × Nat) :=
  (sortRec (recRows follows me)).take 5

/-- The connecting paths behind a recommendation row: the pairs of edges
`(me → b, b → r)` drawn from the store. -/
def connectingPaths (follows : List Edge) (me r : String) :
    List (Edge × Edge) :=
  (follows.filter (fun e => e.1 == me)).flatMap
    (fun e => ((follows.filter (fun f => f.1 == e.2 && f.2 == r)).map
      (fun f => (e, f))))

/-- The effect of one `follow <arg>` command on the store's edge set, when
the store is reachable and answers every query truthfully from the state
`(users, follows)`: the existence check returns the matching user nodes, the
already-following check returns the matching edges, and the `CREATE` query
appends the edge exactly when the command issues it. -/
def followEdges (users : List String) (follows : List Edge)
    (me : String) (arg : String) : List Edge :=
  let result := do_follow true ⟨some me, me ++ "> "⟩ arg
    (some ((users.filter (fun u => u == pyStrip arg)).map (fun _ => ())))
    (some ((follows.filter (fun e => e == (me, pyStrip arg))).map
      (fun _ => (none : Option String))))
    (some [])
  if Effect.query (Query.createFollows me (pyStrip arg)) ∈ result.2 then
    follows ++ [(me, pyStrip arg)]
  else follows

/-! ### Theorems -/

/-- C9: `Neo4jConnection.execute_query` is total at its interface: it returns
`none` exactly when there is no driver connection or the underlying query
raises, and otherwise returns the (possibly empty) list of result records, so
callers can distinguish store failure (`none`) from an empty result
(`some []`). -/
theorem execute_query_total_interface :
    ∀ (ρ : Type) (driver : Bool) (outcome : DriverOutcome ρ),
      (execute_query driver outcome = none ↔
        driver = false ∨ outcome = DriverOutcome.raises) ∧
      (∀ rs : List ρ, execute_query driver outcome = some rs ↔
        driver = true ∧ outcome = DriverOutcome.rows rs) := by
  intro ρ driver outcome
  cases driver <;> cases outcome <;> simp [execute_query]

/-- Witness for `execute_query_total_interface`. -/
theorem execute_query_total_interface_witness :
    execute_query false (DriverOutcome.rows ([] : List Unit)) = none ∧
    execute_query true (DriverOutcome.rows ([] : List Unit)) = some [] :=
  ⟨(execute_query_total_interface Unit false (DriverOutcome.rows [])).1.mpr
      (Or.inl rfl),
   ((execute_query_total_interface Unit true (DriverOutcome.rows [])).2 []).mpr
      ⟨rfl, rfl⟩⟩

/-- C3: for a logged-in user, `follow` with an argument equal to the caller's
own username prints the self-follow rejection and returns with no query
issued. -/
theorem follow_self_rejected_locally :
    ∀ (s : Session) (arg : String) (userExistsRes : Option (List Unit))
      (alreadyRes : Option (List (Option String))) (createRes : Option (List Unit)),
      pyTruthy s.currentUser = true →
      s.currentUser = some (pyStrip arg) →
      do_follow true s arg userExistsRes alreadyRes createRes =
        (s, [Effect.print "You cannot follow yourself."]) := by
  intro s arg uRes aRes cRes h1 h2
  have hne : pyStrip arg ≠ "" := by
    intro h
    rw [h2, h] at h1
    simp [pyTruthy] at h1
  have h1' : pyTruthy (some (pyStrip arg)) = true := h2 ▸ h1
  unfold do_follow
  simp [h1', h2, pyShow, hne]

/-- Witness for `follow_self_rejected_locally`. -/
theorem follow_self_rejected_locally_witness :
    do_follow true ⟨some "alice", "alice> "⟩ "alice" (some []) (some []) (some []) =
      (⟨some "alice", "alice> "⟩, [Effect.print "You cannot follow yourself."]) :=
  follow_self_rejected_locally ⟨some "alice", "alice> "⟩ "alice"
    (some []) (some []) (some []) (by decide) (by decide)

/-- C10: in `delete`, when the credential-match query returns no rows or
fails, the command ends right after that query: no confirmation prompt, no
`DETACH DELETE` query, no further print, and the session unchanged. -/
theorem delete_failed_credentials_silent :
    ∀ (s : Session) (password confirmPassword confirmDeletion : String)
      (credRes deleteRes : Option (List Unit)) (hash : String → String),
      pyTruthy s.currentUser = true →
      hash password = hash confirmPassword →
      (credRes = none ∨ credRes = some []) →
      do_delete s password confirmPassword confirmDeletion credRes deleteRes hash =
        (s, [Effect.promptSecret "Password: ", Effect.promptSecret "Confirm Password: ",
             Effect.query (Query.matchCredentials (pyShow s.currentUser)
               (hash password))]) := by
  intro s pw cpw cf credRes dRes hash h1 h2 h3
  unfold do_delete
  rcases h3 with h3 | h3 <;> subst h3 <;> simp [h1, h2]

/-- Witness for `delete_failed_credentials_silent`. -/
theorem delete_failed_credentials_silent_witness :
    do_delete ⟨some "alice", "alice> "⟩ "pw" "pw" "yes" none (some []) id =
      (⟨some "alice", "alice> "⟩,
       [Effect.promptSecret "Password: ", Effect.promptSecret "Confirm Password: ",
        Effect.query (Query.matchCredentials "alice" "pw")]) :=
  delete_failed_credentials_silent ⟨some "alice", "alice> "⟩ "pw" "pw" "yes"
    none (some []) id (by decide) rfl (Or.inl rfl)

/-- C4: in `delete`, once the password check has succeeded, the
`DETACH DELETE` query is issued iff the typed confirmation is exactly the
literal `"yes"`; any other string cancels, leaving the session (and, with no
deletion query issued, the store) unchanged. -/
theorem delete_requires_exact_yes :
    ∀ (s : Session) (password confirmPassword confirmDeletion : String)
      (r : Unit) (rs : List Unit) (deleteRes : Option (List Unit))
      (hash : String → String),
      pyTruthy s.currentUser = true →
      hash password = hash confirmPassword →
      ((Effect.query (Query.detachDeleteUser (pyShow s.currentUser)) ∈
          (do_delete s password confirmPassword confirmDeletion
            (some (r :: rs)) deleteRes hash).2) ↔ confirmDeletion = "yes") ∧
      (confirmDeletion ≠ "yes" →
        do_delete s password confirmPassword confirmDeletion
            (some (r :: rs)) deleteRes hash =
          (s, [Effect.promptSecret "Password: ",
               Effect.promptSecret "Confirm Password: ",
               Effect.query (Query.matchCredentials (pyShow s.currentUser)
                 (hash password)),
               Effect.promptLine "Confirm you want to delete by typing yes: ",
               Effect.print "Cancelling user deletion"])) := by
  intro s pw cpw cf r rs dRes hash h1 h2
  constructor
  · by_cases hc : cf = "yes"
    · subst hc
      cases dRes <;> simp [do_delete, h1, h2]
    · simp [do_delete, h1, h2, hc]
  · intro hc
    simp [do_delete, h1, h2, hc]

/-- Witness for `delete_requires_exact_yes`. -/
theorem delete_requires_exact_yes_witness :
    (Effect.query (Query.detachDeleteUser "alice") ∈
      (do_delete ⟨some "alice", "alice> "⟩ "pw" "pw" "yes"
        (some [()]) (some []) id).2) ∧
    do_delete ⟨some "alice", "alice> "⟩ "pw" "pw" "Yes"
        (some [()]) (some []) id =
      (⟨some "alice", "alice> "⟩,
       [Effect.promptSecret "Password: ", Effect.promptSecret "Confirm Password: ",
        Effect.query (Query.matchCredentials "alice" "pw"),
        Effect.promptLine "Confirm you want to delete by typing yes: ",
        Effect.print "Cancelling user deletion"]) :=
  ⟨(delete_requires_exact_yes ⟨some "alice", "alice> "⟩ "pw" "pw" "yes"
      () [] (some []) id (by decide) rfl).1.mpr rfl,
   (delete_requires_exact_yes ⟨some "alice", "alice> "⟩ "pw" "pw" "Yes"
      () [] (some []) id (by decide) rfl).2 (by decide)⟩

/-- C1 counterexample: with the store reachable, the target existing and not
yet followed, but the `CREATE` query failing (`execute_query` returns
`None`), `follow` still prints the success message "You're now following
bob." — the command reports success on a failed query, because the result of
the final `CREATE` query is never inspected. -/
theorem follow_create_failure_reports_success :
    do_follow true ⟨some "alice", "alice> "⟩ "bob" (some [()]) (some []) none =
      (⟨some "alice", "alice> "⟩,
       [Effect.query (Query.matchUserByUsername "bob"),
        Effect.query (Query.matchFollowsEdge "alice" "bob"),
        Effect.query (Query.createFollows "alice" "bob"),
        Effect.print "You're now following bob."]) := by decide

/-- C5 counterexample: with an existing edge, `unfollow` confirmed with
`"Yes"` (wrong case, not the exact literal `"yes"`) still issues the
edge-deletion query, because the code lowercases the confirmation before
comparing. -/
theorem unfollow_accepts_mixed_case_yes :
    do_unfollow true ⟨some "alice", "alice> "⟩ "bob" (some [()]) "Yes" none =
      (⟨some "alice", "alice> "⟩,
       [Effect.query (Query.matchFollowsEdge "alice" "bob"),
        Effect.promptLine "Unfollow bob? Type 'yes' to confirm: ",
        Effect.query (Query.deleteFollows "alice" "bob"),
        Effect.print "You've unfollowed bob."]) := by decide

/-- C5 amended: with an existing edge, `unfollow` issues the edge-deletion
query iff the lowercased confirmation string equals `"yes"` (a
case-insensitive match, not the exact literal); any string not spelling
"yes" up to case cancels the unfollow, leaving the edge in place. -/
theorem unfollow_confirmation_case_insensitive :
    ∀ (s : Session) (arg confirm : String) (r : Unit) (rs : List Unit)
      (deleteRes : Option (List Unit)),
      pyTruthy s.currentUser = true →
      pyStrip arg ≠ "" →
      ((Effect.query (Query.deleteFollows (pyShow s.currentUser) (pyStrip arg)) ∈
          (do_unfollow true s arg (some (r :: rs)) confirm deleteRes).2) ↔
        pyLower confirm = "yes") ∧
      (pyLower confirm ≠ "yes" →
        do_unfollow true s arg (some (r :: rs)) confirm deleteRes =
          (s, [Effect.query (Query.matchFollowsEdge (pyShow s.currentUser)
                 (pyStrip arg)),
               Effect.promptLine ("Unfollow " ++ pyStrip arg ++
                 "? Type 'yes' to confirm: "),
               Effect.print "Cancelled."])) := by
  intro s arg confirm r rs dRes h1 h2
  constructor
  · by_cases hc : pyLower confirm = "yes" <;> simp [do_unfollow, h1, h2, hc]
  · intro hc
    simp [do_unfollow, h1, h2, hc]

/-- Witness for `unfollow_confirmation_case_insensitive`. -/
theorem unfollow_confirmation_case_insensitive_witness :
    (Effect.query (Query.deleteFollows "alice" "bob") ∈
      (do_unfollow true ⟨some "alice", "alice> "⟩ "bob" (some [()]) "YES"
        (some [])).2) ∧
    do_unfollow true ⟨some "alice", "alice> "⟩ "bob" (some [()]) "no" (some []) =
      (⟨some "alice", "alice> "⟩,
       [Effect.query (Query.matchFollowsEdge "alice" "bob"),
        Effect.promptLine "Unfollow bob? Type 'yes' to confirm: ",
        Effect.print "Cancelled."]) :=
  ⟨(unfollow_confirmation_case_insensitive ⟨some "alice", "alice> "⟩ "bob" "YES"
      () [] (some []) (by decide) (by decide)).1.mpr (by decide),
   (unfollow_confirmation_case_insensitive ⟨some "alice", "alice> "⟩ "bob" "no"
      () [] (some []) (by decide) (by decide)).2 (by decide)⟩

/-- Characterization of the store-level effect of one `follow` command: the
edge `(me, arg)` is appended exactly when the caller is logged in, the
target name is nonempty, differs from the caller, exists in the store, and
the edge is not already present. -/
theorem followEdges_char :
    ∀ (users : List String) (follows : List Edge) (me arg : String),
      followEdges users follows me arg =
        if me ≠ "" ∧ pyStrip arg ≠ "" ∧ pyStrip arg ≠ me ∧
            users.filter (fun u => u == pyStrip arg) ≠ [] ∧
            follows.filter (fun e => e == (me, pyStrip arg)) = []
        then follows ++ [(me, pyStrip arg)] else follows := by
  intro users follows me arg
  by_cases hme : me = ""
  · subst hme
    simp [followEdges, do_follow, pyTruthy]
  · by_cases ha : pyStrip arg = ""
    · simp [followEdges, do_follow, pyTruthy, hme, ha]
    · by_cases hs : pyStrip arg = me
      · simp [followEdges, do_follow, pyTruthy, pyShow, hme, ha, hs]
      · rcases hu : users.filter (fun u => u == pyStrip arg) with _ | ⟨u, us⟩
        · simp [followEdges, do_follow, pyTruthy, pyShow, hme, ha, hs, hu]
        · rcases hf : follows.filter (fun e => e == (me, pyStrip arg))
            with _ | ⟨e, es⟩
          · simp [followEdges, do_follow, pyTruthy, pyShow, hme, ha, hs, hu, hf]
          · simp [followEdges, do_follow, pyTruthy, pyShow, hme, ha, hs, hu, hf]

/-- C2: when the already-following check returns at least one row, `follow`
reports "already following" and issues no edge-creation query; and at the
store level, running `follow` twice leaves the same edge set as running it
once. -/
theorem follow_already_following_no_duplicate :
    (∀ (s : Session) (arg : String) (u : Unit) (us : List Unit)
       (since : Option String) (sinceRest : List (Option String))
       (createRes : Option (List Unit)),
       pyTruthy s.currentUser = true →
       pyStrip arg ≠ "" →
       pyStrip arg ≠ pyShow s.currentUser →
       do_follow true s arg (some (u :: us)) (some (since :: sinceRest)) createRes =
         (s, [Effect.query (Query.matchUserByUsername (pyStrip arg)),
              Effect.query (Query.matchFollowsEdge (pyShow s.currentUser)
                (pyStrip arg)),
              Effect.print ("You're already following " ++ pyStrip arg ++
                " since " ++ pyOr since "earlier" ++ ".")])) ∧
    (∀ (users : List String) (follows : List Edge) (me arg : String),
       followEdges users (followEdges users follows me arg) me arg =
         followEdges users follows me arg) := by
  constructor
  · intro s arg u us since rest cR h1 h2 h3
    simp [do_follow, h1, h2, h3]
  · intro users follows me arg
    by_cases hc : me ≠ "" ∧ pyStrip arg ≠ "" ∧ pyStrip arg ≠ me ∧
        users.filter (fun u => u == pyStrip arg) ≠ [] ∧
        follows.filter (fun e => e == (me, pyStrip arg)) = []
    · have hA := followEdges_char users follows me arg
      rw [if_pos hc] at hA
      rw [hA, followEdges_char]
      have hneg : ¬(me ≠ "" ∧ pyStrip arg ≠ "" ∧ pyStrip arg ≠ me ∧
          users.filter (fun u => u == pyStrip arg) ≠ [] ∧
          (follows ++ [(me, pyStrip arg)]).filter
            (fun e => e == (me, pyStrip arg)) = []) := by
        intro h
        have h5 := h.2.2.2.2
        rw [List.filter_append] at h5
        simp at h5
      rw [if_neg hneg]
    · have hA := followEdges_char users follows me arg
      rw [if_neg hc] at hA
      rw [hA, followEdges_char, if_neg hc]

/-- Witness for `follow_already_following_no_duplicate`. -/
theorem follow_already_following_no_duplicate_witness :
    do_follow true ⟨some "alice", "alice> "⟩ "bob" (some [()]) (some [none])
        (some []) =
      (⟨some "alice", "alice> "⟩,
       [Effect.query (Query.matchUserByUsername "bob"),
        Effect.query (Query.matchFollowsEdge "alice" "bob"),
        Effect.print ("You're already following " ++ "bob" ++ " since " ++
          pyOr none "earlier" ++ ".")]) ∧
    followEdges ["alice", "bob"] (followEdges ["alice", "bob"] [] "alice" "bob")
        "alice" "bob" = followEdges ["alice", "bob"] [] "alice" "bob" :=
  ⟨follow_already_following_no_duplicate.1 ⟨some "alice", "alice> "⟩ "bob"
      () [] none [] (some []) (by decide) (by decide) (by decide),
   follow_already_following_no_duplicate.2 ["alice", "bob"] [] "alice" "bob"⟩

/-- C8: in `edit_profile` the update query is always issued with the values
`editName`/`editEmail`/`editBio`, and each field left blank keeps the
previously fetched value: a blank name writes the fetched `name`, a blank
email writes the fetched `email` (as do an invalid or an in-use new email),
and a blank bio writes the fetched `bio` whenever that is a string; only the
fields actually filled in (with a valid email that the uniqueness check did
not reject) receive the new value. -/
theorem edit_profile_blank_preserves :
    ∀ (s : Session) (current : EditRow) (rest : List EditRow)
      (nameInput emailInput bioInput : String)
      (emailCheckRes updateRes : Option (List Unit)),
      pyTruthy s.currentUser = true →
      (Effect.query (Query.setProfile (pyShow s.currentUser)
          (editName current nameInput)
          (editEmail current emailInput emailCheckRes)
          (editBio current bioInput)) ∈
        (do_edit_profile true s (some (current :: rest)) nameInput emailInput
          bioInput emailCheckRes updateRes).2) ∧
      (pyStrip nameInput = "" → editName current nameInput = current.name) ∧
      (pyStrip emailInput = "" →
        editEmail current emailInput emailCheckRes = current.email) ∧
      (emailRegexMatch (pyStrip emailInput) = false →
        editEmail current emailInput emailCheckRes = current.email) ∧
      (∀ (x : Unit) (xs : List Unit), emailCheckRes = some (x :: xs) →
        editEmail current emailInput emailCheckRes = current.email) ∧
      (∀ b : String, current.bio = some b → pyStrip bioInput = "" →
        editBio current bioInput = b) ∧
      (pyStrip nameInput ≠ "" →
        editName current nameInput = some (pyStrip nameInput)) ∧
      (pyStrip bioInput ≠ "" → editBio current bioInput = pyStrip bioInput) ∧
      (pyStrip emailInput ≠ "" → emailRegexMatch (pyStrip emailInput) = true →
        (emailCheckRes = none ∨ emailCheckRes = some []) →
        editEmail current emailInput emailCheckRes = some (pyStrip emailInput)) := by
  intro s current rest nI eI bI ecRes upRes h1
  refine ⟨?_, ?_, ?_, ?_, ?_, ?_, ?_, ?_, ?_⟩
  · by_cases he : pyStrip eI = "" <;>
    by_cases hv : emailRegexMatch (pyStrip eI) = false <;>
    rcases ecRes with _ | ⟨_ | ⟨x, xs⟩⟩ <;>
    rcases upRes with _ | ⟨_ | ⟨y, ys⟩⟩ <;>
    simp [do_edit_profile, h1, he, hv]
  · intro h
    simp [editName, h]
  · intro h
    simp [editEmail, h]
  · intro h
    by_cases he : pyStrip eI = "" <;> simp [editEmail, he, h]
  · intro x xs h
    subst h
    by_cases he : pyStrip eI = "" <;>
      by_cases hv : emailRegexMatch (pyStrip eI) = false <;>
      simp [editEmail, he, hv]
  · intro b hb hblank
    by_cases hb0 : b = "" <;> simp [editBio, hblank, hb, pyOr, pyTruthy, hb0]
  · intro h
    simp [editName, h]
  · intro h
    simp [editBio, h]
  · intro he hv hc
    rcases hc with hc | hc <;> subst hc <;> simp [editEmail, he, hv]

/-- Witness for `edit_profile_blank_preserves`. -/
theorem edit_profile_blank_preserves_witness :
    (Effect.query (Query.setProfile "alice"
        (editName ⟨some "Alice", some "a@x.com", some "hi"⟩ "")
        (editEmail ⟨some "Alice", some "a@x.com", some "hi"⟩ "" (some []))
        (editBio ⟨some "Alice", some "a@x.com", some "hi"⟩ "")) ∈
      (do_edit_profile true ⟨some "alice", "alice> "⟩
        (some [⟨some "Alice", some "a@x.com", some "hi"⟩]) "" "" ""
        (some []) (some [()])).2) ∧
    editName ⟨some "Alice", some "a@x.com", some "hi"⟩ "" = some "Alice" ∧
    editEmail ⟨some "Alice", some "a@x.com", some "hi"⟩ "" (some []) =
      some "a@x.com" ∧
    editBio ⟨some "Alice", some "a@x.com", some "hi"⟩ "" = "hi" := by
  have h := edit_profile_blank_preserves ⟨some "alice", "alice> "⟩
    ⟨some "Alice", some "a@x.com", some "hi"⟩ [] "" "" "" (some []) (some [()])
    (by decide)
  exact ⟨h.1, h.2.1 (by decide), h.2.2.1 (by decide),
    h.2.2.2.2.2.1 "hi" rfl (by decide)⟩

/-- `plusThen p k` accepts exactly the lists that split into a nonempty
prefix of characters satisfying `p` followed by a suffix accepted by `k`. -/
theorem plusThen_eq_true_iff (p : Char → Bool) (k : List Char → Bool) :
    ∀ l : List Char, plusThen p k l = true ↔
      ∃ pre post, pre ≠ [] ∧ (∀ c ∈ pre, p c = true) ∧ l = pre ++ post ∧
        k post = true := by
  intro l
  induction l with
  | nil =>
    simp only [plusThen]
    constructor
    · intro h
      exact absurd h (by simp)
    · rintro ⟨pre, post, hne, _, habs, _⟩
      cases pre with
      | nil => exact absurd rfl hne
      | cons c pre' => simp at habs
  | cons c rest ih =>
    simp only [plusThen, Bool.and_eq_true, Bool.or_eq_true]
    constructor
    · rintro ⟨hp, hk | hrec⟩
      · exact ⟨[c], rest, by simp, by simp [hp], rfl, hk⟩
      · obtain ⟨pre, post, hne, hall, heq, hk⟩ := ih.mp hrec
        refine ⟨c :: pre, post, by simp, ?_, by simp [heq], hk⟩
        intro x hx
        rcases List.mem_cons.mp hx with hx | hx
        · exact hx ▸ hp
        · exact hall x hx
    · rintro ⟨pre, post, hne, hall, heq, hk⟩
      cases pre with
      | nil => exact absurd rfl hne
      | cons c' pre' =>
        rw [List.cons_append] at heq
        obtain ⟨hc, hrest⟩ := List.cons.inj heq
        subst hc
        refine ⟨hall c (by simp), ?_⟩
        cases pre' with
        | nil =>
          rw [List.nil_append] at hrest
          exact Or.inl (hrest ▸ hk)
        | cons d pre'' =>
          refine Or.inr (ih.mpr ⟨d :: pre'', post, by simp, ?_, hrest, hk⟩)
          intro x hx
          exact hall x (List.mem_cons_of_mem c hx)

/-- `charThen c k` accepts exactly the lists starting with `c` whose tail is
accepted by `k`. -/
theorem charThen_eq_true_iff (c : Char) (k : List Char → Bool) :
    ∀ l : List Char, charThen c k l = true ↔
      ∃ rest, l = c :: rest ∧ k rest = true := by
  intro l
  cases l with
  | nil => simp [charThen]
  | cons d rest =>
    simp only [charThen, Bool.and_eq_true, beq_iff_eq]
    constructor
    · rintro ⟨hd, hk⟩
      exact ⟨rest, by rw [hd], hk⟩
    · rintro ⟨rest', heq, hk⟩
      obtain ⟨hd, hr⟩ := List.cons.inj heq
      exact ⟨hd, hr ▸ hk⟩

/-- The terminal `[^@]+` atom (with nothing after it, as `re.match` does not
anchor the end): accepts exactly lists starting with a non-`@` character. -/
theorem plusThen_top_eq_true_iff (p : Char → Bool) :
    ∀ l : List Char, plusThen p (fun _ => true) l = true ↔
      ∃ c rest, l = c :: rest ∧ p c = true := by
  intro l
  cases l with
  | nil => simp [plusThen]
  | cons c rest =>
    simp only [plusThen, Bool.and_eq_true, Bool.or_eq_true]
    constructor
    · rintro ⟨hp, _⟩
      exact ⟨c, rest, rfl, hp⟩
    · rintro ⟨c', rest', heq, hp⟩
      obtain ⟨hc, _⟩ := List.cons.inj heq
      exact ⟨hc ▸ hp, Or.inl trivial⟩

/-- The regex of `do_register` accepts exactly the strings of shape
`a ++ "@" ++ b ++ "." ++ c :: rest` with `a`, `b` nonempty and `@`-free and
`c` not `@`. -/
theorem emailRegexMatch_iff :
    ∀ s : String, emailRegexMatch s = true ↔ regexEmailShape s := by
  intro s
  unfold emailRegexMatch regexEmailShape
  constructor
  · intro h
    obtain ⟨a, p₁, haNe, haAll, hSplit, hK₁⟩ := (plusThen_eq_true_iff _ _ _).mp h
    obtain ⟨r₁, hp₁, hK₂⟩ := (charThen_eq_true_iff _ _ _).mp hK₁
    obtain ⟨b, p₂, hbNe, hbAll, hr₁, hK₃⟩ := (plusThen_eq_true_iff _ _ _).mp hK₂
    obtain ⟨r₂, hp₂, hK₄⟩ := (charThen_eq_true_iff _ _ _).mp hK₃
    obtain ⟨c, r₃, hr₂, hc⟩ := (plusThen_top_eq_true_iff _ _).mp hK₄
    refine ⟨a, b, c, r₃, haNe, hbNe, ?_, ?_, ?_, ?_⟩
    · intro x hx
      simpa [nonAt] using haAll x hx
    · intro x hx
      simpa [nonAt] using hbAll x hx
    · simpa [nonAt] using hc
    · rw [hSplit, hp₁, hr₁, hp₂, hr₂]
  · rintro ⟨a, b, c, rest, haNe, hbNe, haAll, hbAll, hc, hEq⟩
    rw [hEq]
    refine (plusThen_eq_true_iff _ _ _).mpr ⟨a, '@' :: (b ++ '.' :: c :: rest),
      haNe, ?_, rfl, ?_⟩
    · intro x hx
      simp [nonAt, haAll x hx]
    · refine (charThen_eq_true_iff _ _ _).mpr ⟨b ++ '.' :: c :: rest, rfl, ?_⟩
      refine (plusThen_eq_true_iff _ _ _).mpr
        ⟨b, '.' :: c :: rest, hbNe, ?_, rfl, ?_⟩
      · intro x hx
        simp [nonAt, hbAll x hx]
      · refine (charThen_eq_true_iff _ _ _).mpr ⟨c :: rest, rfl, ?_⟩
        exact (plusThen_top_eq_true_iff _ _).mpr ⟨c, rest, rfl, by simp [nonAt, hc]⟩

/-- C7 counterexample: `"a@b@c.d"` has the shape the specification describes
(at least one character, `@`, at least one character, `.`, at least one
character — namely `"a" ++ "@" ++ "b@c" ++ "." ++ "d"`), yet `register`
rejects it as an invalid email and never issues the user-creation query. -/
theorem email_shape_mismatch :
    specEmailShape "a@b@c.d" ∧
    do_register true ⟨none, "socli> "⟩ "alice" "Alice" "a@b@c.d" "pw" "pw"
        (some []) (some []) (some [()]) id =
      (⟨none, "socli> "⟩,
       [Effect.print "\n=== User Registration ===\n",
        Effect.promptLine "Username: ",
        Effect.query (Query.matchUserByUsername "alice"),
        Effect.promptLine "Full Name: ", Effect.promptLine "Email: ",
        Effect.print "Invalid email format."]) :=
  ⟨⟨"a", "b@c", "d", by decide, by decide, by decide, by decide⟩, by decide⟩

/-- C7 amended: `register` accepts an email string iff its character list
decomposes as `a ++ '@' :: (b ++ '.' :: c :: rest)` with `a` and `b` nonempty
and containing no `@` and `c` not `@` (the regex `[^@]+@[^@]+\.[^@]+` matched
against a prefix); when the syntax check fails the command stops with
"Invalid email format." and no user-creation query is issued. -/
theorem email_regex_characterization :
    (∀ s : String, emailRegexMatch s = true ↔ regexEmailShape s) ∧
    (∀ (st : Session) (usernameInput nameInput emailInput pw cpw : String)
       (uRes eRes cRes : Option (List Unit)) (hash : String → String),
       pyStrip usernameInput ≠ "" →
       (uRes = none ∨ uRes = some []) →
       emailRegexMatch (pyStrip emailInput) = false →
       do_register true st usernameInput nameInput emailInput pw cpw
           uRes eRes cRes hash =
         (st, [Effect.print "\n=== User Registration ===\n",
               Effect.promptLine "Username: ",
               Effect.query (Query.matchUserByUsername (pyStrip usernameInput)),
               Effect.promptLine "Full Name: ", Effect.promptLine "Email: ",
               Effect.print "Invalid email format."])) := by
  refine ⟨emailRegexMatch_iff, ?_⟩
  intro st uI nI eI pw cpw uRes eRes cRes hash hu huR hm
  rcases huR with h | h <;> subst h <;> simp [do_register, hu, hm]

/-- Witness for `email_regex_characterization`. -/
theorem email_regex_characterization_witness :
    regexEmailShape "a@b.c" ∧
    do_register true ⟨none, "socli> "⟩ "alice" "Alice" "nodothere" "pw" "pw"
        none (some []) (some [()]) id =
      (⟨none, "socli> "⟩,
       [Effect.print "\n=== User Registration ===\n",
        Effect.promptLine "Username: ",
        Effect.query (Query.matchUserByUsername "alice"),
        Effect.promptLine "Full Name: ", Effect.promptLine "Email: ",
        Effect.print "Invalid email format."]) :=
  ⟨(email_regex_characterization.1 "a@b.c").mp (by rfl),
   email_regex_characterization.2 ⟨none, "socli> "⟩ "alice" "Alice" "nodothere"
     "pw" "pw" none (some []) (some [()]) id (by decide) (Or.inl rfl) (by rfl)⟩

/-- `lexLe` is the complement of the strict lexicographic order. -/
theorem lexLe_iff : ∀ l₁ l₂ : List Char,
    lexLe l₁ l₂ = true ↔ ¬ List.Lex (fun c d : Char => c < d) l₂ l₁ := by
  intro l₁
  induction l₁ with
  | nil =>
    intro l₂
    simp [lexLe]
  | cons c cs ih =>
    intro l₂
    cases l₂ with
    | nil =>
      refine iff_of_false (by simp [lexLe]) (not_not_intro List.Lex.nil)
    | cons d ds =>
      by_cases hcd : c < d
      · simp only [lexLe, if_pos hcd, true_iff]
        intro h
        cases h with
        | cons h2 => exact absurd hcd (lt_irrefl _)
        | rel h2 => exact absurd hcd (asymm h2)
      · by_cases hdc : d < c
        · exact iff_of_false (by simp [lexLe, hcd, hdc])
            (not_not_intro (List.Lex.rel hdc))
        · have hceq : c = d := le_antisymm (not_lt.mp hdc) (not_lt.mp hcd)
          subst hceq
          simp only [lexLe, if_neg hcd, if_neg hdc]
          rw [List.Lex.cons_iff]
          exact ih ds

/-- `lexLe` on the character data coincides with the linear order on
strings. -/
theorem lexLe_data_iff_le (a b : String) : lexLe a.data b.data = true ↔ a ≤ b := by
  rw [lexLe_iff]
  constructor
  · intro h
    by_contra hab
    exact h (String.lt_iff_toList_lt.mp (lt_of_not_le hab))
  · intro hab h
    exact absurd hab (not_le.mpr (String.lt_iff_toList_lt.mpr h))

/-- The comparator `recLeb` decides "count descending, then username
ascending". -/
theorem recLeb_iff (a b : String × Nat) :
    recLeb a b = true ↔ b.2 < a.2 ∨ (a.2 = b.2 ∧ a.1 ≤ b.1) := by
  simp [recLeb, lexLe_data_iff_le]

/-- `recLeb` is total. -/
theorem recLeb_total (a b : String × Nat) :
    recLeb a b = true ∨ recLeb b a = true := by
  rw [recLeb_iff, recLeb_iff]
  rcases lt_trichotomy a.2 b.2 with h | h | h
  · exact Or.inr (Or.inl h)
  · rcases le_total a.1 b.1 with h1 | h1
    · exact Or.inl (Or.inr ⟨h, h1⟩)
    · exact Or.inr (Or.inr ⟨h.symm, h1⟩)
  · exact Or.inl (Or.inl h)

/-- `recLeb` is transitive. -/
theorem recLeb_trans (a b c : String × Nat) (hab : recLeb a b = true)
    (hbc : recLeb b c = true) : recLeb a c = true := by
  rw [recLeb_iff] at hab hbc ⊢
  rcases hab with h1 | ⟨h1, h1'⟩ <;> rcases hbc with h2 | ⟨h2, h2'⟩
  · exact Or.inl (h2.trans h1)
  · exact Or.inl (h2 ▸ h1)
  · exact Or.inl (h1 ▸ h2)
  · exact Or.inr ⟨h1.trans h2, h1'.trans h2'⟩

/-- Membership through `insertRec`. -/
theorem mem_insertRec (x z : String × Nat) :
    ∀ l, z ∈ insertRec x l ↔ z = x ∨ z ∈ l := by
  intro l
  induction l with
  | nil => simp [insertRec]
  | cons y ys ih =>
    by_cases h : recLeb x y = true <;> simp [insertRec, h, ih] <;> tauto

/-- `insertRec` adds one element. -/
theorem length_insertRec (x : String × Nat) :
    ∀ l, (insertRec x l).length = l.length + 1 := by
  intro l
  induction l with
  | nil => rfl
  | cons y ys ih =>
    by_cases h : recLeb x y = true <;> simp [insertRec, h, ih]

/-- `insertRec` permutes the consed list. -/
theorem perm_insertRec (x : String × Nat) :
    ∀ l, List.Perm (insertRec x l) (x :: l) := by
  intro l
  induction l with
  | nil => exact List.Perm.refl _
  | cons y ys ih =>
    by_cases h : recLeb x y = true
    · rw [insertRec, if_pos h]
    · rw [insertRec, if_neg h]
      exact (ih.cons y).trans (List.Perm.swap x y ys)

/-- `sortRec` permutes its input. -/
theorem sortRec_perm : ∀ l, List.Perm (sortRec l) l := by
  intro l
  induction l with
  | nil => exact List.Perm.refl _
  | cons x xs ih => exact (perm_insertRec x (sortRec xs)).trans (ih.cons x)

/-- `insertRec` preserves sortedness. -/
theorem sorted_insertRec (x : String × Nat) (l : List (String × Nat))
    (h : l.Pairwise (fun a b => recLeb a b = true)) :
    (insertRec x l).Pairwise (fun a b => recLeb a b = true) := by
  induction l with
  | nil => simp [insertRec]
  | cons y ys ih =>
    rcases List.pairwise_cons.mp h with ⟨hy, hys⟩
    by_cases hxy : recLeb x y = true
    · rw [insertRec, if_pos hxy]
      refine List.pairwise_cons.mpr ⟨?_, h⟩
      intro z hz
      rcases List.mem_cons.mp hz with hz | hz
      · exact hz ▸ hxy
      · exact recLeb_trans x y z hxy (hy z hz)
    · rw [insertRec, if_neg hxy]
      refine List.pairwise_cons.mpr ⟨?_, ih hys⟩
      intro z hz
      rcases (mem_insertRec x z ys).mp hz with hz | hz
      · rw [hz]
        rcases recLeb_total x y with h' | h'
        · exact absurd h' hxy
        · exact h'
      · exact hy z hz

/-- `sortRec` sorts. -/
theorem sorted_sortRec :
    ∀ l, (sortRec l).Pairwise (fun a b => recLeb a b = true) := by
  intro l
  induction l with
  | nil => simp [sortRec]
  | cons x xs ih => exact sorted_insertRec x _ ih

/-- Membership in the two-hop target list. -/
theorem mem_twoHopTargets (follows : List Edge) (me r : String) :
    r ∈ twoHopTargets follows me ↔ ∃ b, (me, b) ∈ follows ∧ (b, r) ∈ follows := by
  unfold twoHopTargets
  constructor
  · intro h
    simp only [List.mem_flatMap, List.mem_map, List.mem_filter, beq_iff_eq] at h
    obtain ⟨e, ⟨heMem, he1⟩, f, ⟨hfMem, hf1⟩, hfr⟩ := h
    refine ⟨e.2, ?_, ?_⟩
    · rw [← he1]
      simpa using heMem
    · rw [← hf1, ← hfr]
      simpa using hfMem
  · rintro ⟨b, hmb, hbr⟩
    simp only [List.mem_flatMap, List.mem_map, List.mem_filter, beq_iff_eq]
    exact ⟨(me, b), ⟨hmb, rfl⟩, (b, r), ⟨hbr, rfl⟩, rfl⟩

/-- Membership in the candidate list after the `WHERE` filter. -/
theorem mem_recCandidates (follows : List Edge) (me r : String) :
    r ∈ recCandidates follows me ↔
      (∃ b, (me, b) ∈ follows ∧ (b, r) ∈ follows) ∧ r ≠ me ∧
        (me, r) ∉ follows := by
  unfold recCandidates
  rw [List.mem_filter, mem_twoHopTargets]
  simp

/-- Filtering by a predicate true at `r` keeps the multiplicity of `r`. -/
theorem count_filter_true (q : String → Bool) (r : String) (hq : q r = true) :
    ∀ l : List String, (l.filter q).count r = l.count r := by
  intro l
  induction l with
  | nil => rfl
  | cons x xs ih =>
    by_cases hx : x = r
    · subst hx
      simp [List.filter_cons, hq, List.count_cons, ih]
    · by_cases hqx : q x = true <;>
        simp [List.filter_cons, hqx, List.count_cons, hx, ih]

/-- Multiplicity of `r` among the second components of the edges leaving
`b`. -/
theorem count_map_snd_filter (follows : List Edge) (b r : String) :
    ((follows.filter (fun f => f.1 == b)).map (fun f => f.2)).count r =
      (follows.filter (fun f => f.1 == b && f.2 == r)).length := by
  induction follows with
  | nil => rfl
  | cons f fs ih =>
    by_cases h1 : f.1 = b <;> by_cases h2 : f.2 = r <;>
      simp [List.filter_cons, h1, h2, List.count_cons, ih]

/-- The multiplicity of a target in the two-hop list is the number of
connecting paths. -/
theorem count_twoHop (follows : List Edge) (me r : String) :
    (twoHopTargets follows me).count r = (connectingPaths follows me r).length := by
  unfold twoHopTargets connectingPaths
  induction follows.filter (fun e => e.1 == me) with
  | nil => rfl
  | cons e es ih =>
    rw [List.flatMap_cons, List.flatMap_cons, List.count_append,
      List.length_append, ih, count_map_snd_filter, List.length_map]

/-- Membership in the grouped rows. -/
theorem recRows_mem (follows : List Edge) (me : String) (p : String × Nat) :
    p ∈ recRows follows me ↔
      p.1 ∈ recCandidates follows me ∧
        p.2 = (recCandidates follows me).count p.1 := by
  unfold recRows
  rw [List.mem_map]
  constructor
  · rintro ⟨r, hr, heq⟩
    rw [← heq]
    exact ⟨List.mem_dedup.mp hr, rfl⟩
  · rintro ⟨h1, h2⟩
    refine ⟨p.1, List.mem_dedup.mpr h1, ?_⟩
    obtain ⟨p1, p2⟩ := p
    simpa using h2.symm

/-- C6: the `recommendations` query returns only users reachable by exactly
a two-hop FOLLOWS traversal, excluding the caller and everyone the caller
already follows; each row carries the count of connecting paths; rows are
ordered by count descending with ties broken by username ascending; at most
5 rows are returned, with no candidate repeated; every qualifying candidate
appears unless the 5-row cap is reached; and with no two-hop reachable user
the result is empty, not an error. -/
theorem recommendations_query_correct :
    ∀ (follows : List Edge) (me : String),
      (∀ p ∈ recommendationsQuery follows me,
        (∃ b, (me, b) ∈ follows ∧ (b, p.1) ∈ follows) ∧ p.1 ≠ me ∧
          (me, p.1) ∉ follows ∧
          p.2 = (connectingPaths follows me p.1).length) ∧
      List.Pairwise (fun a b : String × Nat =>
        b.2 < a.2 ∨ (a.2 = b.2 ∧ a.1 ≤ b.1)) (recommendationsQuery follows me) ∧
      (recommendationsQuery follows me).length ≤ 5 ∧
      ((recommendationsQuery follows me).map Prod.fst).Nodup ∧
      (∀ r : String, (∃ b, (me, b) ∈ follows ∧ (b, r) ∈ follows) → r ≠ me →
        (me, r) ∉ follows →
        (r ∈ (recommendationsQuery follows me).map Prod.fst ∨
          (recommendationsQuery follows me).length = 5)) ∧
      ((∀ r b, ¬ ((me, b) ∈ follows ∧ (b, r) ∈ follows)) →
        recommendationsQuery follows me = []) := by
  intro follows me
  refine ⟨?_, ?_, ?_, ?_, ?_, ?_⟩
  · intro p hp
    have hp1 : p ∈ sortRec (recRows follows me) := List.mem_of_mem_take hp
    have hp2 : p ∈ recRows follows me := (sortRec_perm _).mem_iff.mp hp1
    obtain ⟨hc, hcount⟩ := (recRows_mem follows me p).mp hp2
    obtain ⟨htwo, hne, hnf⟩ := (mem_recCandidates follows me p.1).mp hc
    refine ⟨htwo, hne, hnf, ?_⟩
    rw [hcount]
    have hpred : (p.1 != me && !(follows.contains (me, p.1))) = true := by
      simp [hne, hnf]
    unfold recCandidates
    rw [count_filter_true _ _ hpred, count_twoHop]
  · have h3 : (recommendationsQuery follows me).Pairwise
        (fun a b => recLeb a b = true) :=
      List.Pairwise.sublist (List.take_sublist 5 _)
        (sorted_sortRec (recRows follows me))
    exact h3.imp (fun hab => (recLeb_iff _ _).mp hab)
  · unfold recommendationsQuery
    simp [List.length_take]
  · have h0 : (recRows follows me).map Prod.fst =
        (recCandidates follows me).dedup := by
      unfold recRows
      induction (recCandidates follows me).dedup with
      | nil => rfl
      | cons x xs ih => simp [ih]
    have h1 : ((sortRec (recRows follows me)).map Prod.fst).Nodup := by
      have hperm := (sortRec_perm (recRows follows me)).map Prod.fst
      rw [hperm.nodup_iff, h0]
      exact List.nodup_dedup _
    unfold recommendationsQuery
    rw [List.map_take]
    exact List.Nodup.sublist (List.take_sublist 5 _) h1
  · intro r htwo hne hnf
    have hc : r ∈ recCandidates follows me :=
      (mem_recCandidates follows me r).mpr ⟨htwo, hne, hnf⟩
    have hrow : (r, (recCandidates follows me).count r) ∈ recRows follows me :=
      (recRows_mem _ _ _).mpr ⟨hc, rfl⟩
    have hsort : (r, (recCandidates follows me).count r) ∈
        sortRec (recRows follows me) := (sortRec_perm _).mem_iff.mpr hrow
    by_cases hlen : (sortRec (recRows follows me)).length ≤ 5
    · left
      unfold recommendationsQuery
      rw [List.take_of_length_le hlen]
      exact List.mem_map.mpr ⟨_, hsort, rfl⟩
    · right
      unfold recommendationsQuery
      rw [List.length_take]
      omega
  · intro hno
    have hcand : recCandidates follows me = [] := by
      rw [List.eq_nil_iff_forall_not_mem]
      intro r hr
      obtain ⟨⟨b, hb⟩, _, _⟩ := (mem_recCandidates follows me r).mp hr
      exact hno r b hb
    unfold recommendationsQuery recRows
    rw [hcand]
    rfl

/-- Witness for `recommendations_query_correct`. -/
theorem recommendations_query_correct_witness :
    (∃ b, ("alice", b) ∈ ([("alice", "bob"), ("bob", "carol")] : List Edge) ∧
      (b, "carol") ∈ ([("alice", "bob"), ("bob", "carol")] : List Edge)) ∧
    recommendationsQuery [("alice", "bob")] "bob" = [] := by
  constructor
  · exact ((recommendations_query_correct [("alice", "bob"), ("bob", "carol")]
      "alice").1 ("carol", 1) (by decide)).1
  · refine (recommendations_query_correct [("alice", "bob")] "bob").2.2.2.2.2 ?_
    rintro r b ⟨h1, h2⟩
    simp at h1

/-- C1 amended: a failed query never changes the session's local state
(`current_user`, `prompt`): no command except `login` and `delete` writes the
session at all, `login` leaves it unchanged whenever its credential query
fails, and `delete` leaves it unchanged whenever its credential or its
detach query fails.  The command reports failure at every point where the
failed result is inspected (`login`, `delete`'s detach, `register`'s create,
`change_password`'s update, `edit_profile`'s fetch, `follow`'s existence
check, `recommendations`); but `follow` and `unfollow` never inspect the
result of their final `CREATE`/`DELETE` query and print the success message
even when it fails, and a failed pre-check (`register`'s uniqueness checks,
`edit_profile`'s email check, `follow`'s already-following check) is treated
like an empty result, letting the command proceed. -/
theorem query_failure_session_and_reporting :
    (∀ conn s a b c pw cpw uR eR cR h,
      (do_register conn s a b c pw cpw uR eR cR h).1 = s) ∧
    (∀ conn s arg pR fR gR, (do_profile conn s arg pR fR gR).1 = s) ∧
    (∀ conn s fR n e b ecR uR,
      (do_edit_profile conn s fR n e b ecR uR).1 = s) ∧
    (∀ conn s c n cf vR uR h,
      (do_change_password conn s c n cf vR uR h).1 = s) ∧
    (∀ conn s arg uR aR cR, (do_follow conn s arg uR aR cR).1 = s) ∧
    (∀ conn s arg kR cf dR, (do_unfollow conn s arg kR cf dR).1 = s) ∧
    (∀ conn s arg r, (do_followers conn s arg r).1 = s) ∧
    (∀ conn s arg r, (do_following conn s arg r).1 = s) ∧
    (∀ conn s r, (do_recommendations conn s r).1 = s) ∧
    (∀ conn s a t r, (do_search conn s a t r).1 = s) ∧
    (∀ conn s r, (do_popular conn s r).1 = s) ∧
    (∀ conn s arg r, (do_mutuals conn s arg r).1 = s) ∧
    (∀ s r, (do_debug_mutual_pairs s r).1 = s) ∧
    (∀ conn s arg ui pw h, (do_login conn s arg ui pw none h).1 = s) ∧
    (∀ s pw cpw cf dR h, (do_delete s pw cpw cf none dR h).1 = s) ∧
    (∀ s pw cpw cf cR h, (do_delete s pw cpw cf cR none h).1 = s) ∧
    (∀ (s : Session) (ui pw : String) (h : String → String),
      pyTruthy s.currentUser = false → pyStrip ui ≠ "" →
      do_login true s "" ui pw none h =
        (s, [Effect.promptLine "Username: ", Effect.promptSecret "Password: ",
             Effect.query (Query.matchCredentials (pyStrip ui) (h pw)),
             Effect.print "Invalid username or password."])) ∧
    (∀ (s : Session) (pw cpw : String) (h : String → String) (r : Unit)
       (rs : List Unit),
      pyTruthy s.currentUser = true → h pw = h cpw →
      do_delete s pw cpw "yes" (some (r :: rs)) none h =
        (s, [Effect.promptSecret "Password: ",
             Effect.promptSecret "Confirm Password: ",
             Effect.query (Query.matchCredentials (pyShow s.currentUser) (h pw)),
             Effect.promptLine "Confirm you want to delete by typing yes: ",
             Effect.query (Query.detachDeleteUser (pyShow s.currentUser)),
             Effect.print "Failed to delete user."])) ∧
    (∀ (s : Session) (uI nI eI pw : String) (h : String → String)
       (uR eR : Option (List Unit)),
      pyStrip uI ≠ "" → (uR = none ∨ uR = some []) →
      emailRegexMatch (pyStrip eI) = true → (eR = none ∨ eR = some []) →
      pw ≠ "" →
      do_register true s uI nI eI pw pw uR eR none h =
        (s, [Effect.print "\n=== User Registration ===\n",
             Effect.promptLine "Username: ",
             Effect.query (Query.matchUserByUsername (pyStrip uI)),
             Effect.promptLine "Full Name: ", Effect.promptLine "Email: ",
             Effect.query (Query.matchUserByEmail (pyStrip eI)),
             Effect.promptSecret "Password: ",
             Effect.promptSecret "Confirm Password: ",
             Effect.query (Query.createUser (pyStrip uI) (pyStrip nI)
               (pyStrip eI) (h pw) ""),
             Effect.print "Failed to register user. Please try again."])) ∧
    (∀ (s : Session) (c n : String) (h : String → String) (r : Unit)
       (rs : List Unit),
      pyTruthy s.currentUser = true → n ≠ "" →
      do_change_password true s c n n (some (r :: rs)) none h =
        (s, [Effect.promptSecret "Current password: ",
             Effect.query (Query.matchCredentials (pyShow s.currentUser) (h c)),
             Effect.promptSecret "New password: ",
             Effect.promptSecret "Confirm new password: ",
             Effect.query (Query.setPassword (pyShow s.currentUser) (h n)),
             Effect.print "Failed to change password."])) ∧
    (∀ (s : Session) (nI eI bI : String) (ecR uR : Option (List Unit)),
      pyTruthy s.currentUser = true →
      do_edit_profile true s none nI eI bI ecR uR =
        (s, [Effect.print "\n=== Edit Profile ===\n",
             Effect.query (Query.fetchProfileFields (pyShow s.currentUser)),
             Effect.print "Failed to retrieve your profile."])) ∧
    (∀ (s : Session) (arg : String) (aR : Option (List (Option String)))
       (cR : Option (List Unit)),
      pyTruthy s.currentUser = true → pyStrip arg ≠ "" →
      pyStrip arg ≠ pyShow s.currentUser →
      do_follow true s arg none aR cR =
        (s, [Effect.query (Query.matchUserByUsername (pyStrip arg)),
             Effect.print ("User '" ++ pyStrip arg ++ "' not found.")])) ∧
    (∀ (s : Session) (arg : String) (aR : Option (List (Option String)))
       (u : Unit) (us : List Unit),
      pyTruthy s.currentUser = true → pyStrip arg ≠ "" →
      pyStrip arg ≠ pyShow s.currentUser → (aR = none ∨ aR = some []) →
      do_follow true s arg (some (u :: us)) aR none =
        (s, [Effect.query (Query.matchUserByUsername (pyStrip arg)),
             Effect.query (Query.matchFollowsEdge (pyShow s.currentUser)
               (pyStrip arg)),
             Effect.query (Query.createFollows (pyShow s.currentUser)
               (pyStrip arg)),
             Effect.print ("You're now following " ++ pyStrip arg ++ ".")])) ∧
    (∀ (s : Session) (arg confirm : String) (k : Unit) (ks : List Unit),
      pyTruthy s.currentUser = true → pyStrip arg ≠ "" →
      pyLower confirm = "yes" →
      do_unfollow true s arg (some (k :: ks)) confirm none =
        (s, [Effect.query (Query.matchFollowsEdge (pyShow s.currentUser)
               (pyStrip arg)),
             Effect.promptLine ("Unfollow " ++ pyStrip arg ++
               "? Type 'yes' to confirm: "),
             Effect.query (Query.deleteFollows (pyShow s.currentUser)
               (pyStrip arg)),
             Effect.print ("You've unfollowed " ++ pyStrip arg ++ ".")])) ∧
    (∀ s : Session, pyTruthy s.currentUser = true →
      do_recommendations true s none =
        (s, [Effect.query (Query.recommendationsQ (pyShow s.currentUser)),
             Effect.print "No recommendations available."])) := by
  refine ⟨?_, ?_, ?_, ?_, ?_, ?_, ?_, ?_, ?_, ?_, ?_, ?_, ?_, ?_, ?_, ?_,
    ?_, ?_, ?_, ?_, ?_, ?_, ?_, ?_, ?_⟩
  · intro conn s a b c pw cpw uR eR cR h
    dsimp only [do_register]
    repeat (first | rfl | split)
  · intro conn s arg pR fR gR
    dsimp only [do_profile]
    repeat (first | rfl | split)
  · intro conn s fR n e b ecR uR
    dsimp only [do_edit_profile]
    repeat (first | rfl | split)
  · intro conn s c n cf vR uR h
    dsimp only [do_change_password]
    repeat (first | rfl | split)
  · intro conn s arg uR aR cR
    dsimp only [do_follow]
    repeat (first | rfl | split)
  · intro conn s arg kR cf dR
    dsimp only [do_unfollow]
    repeat (first | rfl | split)
  · intro conn s arg r
    dsimp only [do_followers]
    repeat (first | rfl | split)
  · intro conn s arg r
    dsimp only [do_following]
    repeat (first | rfl | split)
  · intro conn s r
    dsimp only [do_recommendations]
    repeat (first | rfl | split)
  · intro conn s a t r
    dsimp only [do_search]
    repeat (first | rfl | split)
  · intro conn s r
    dsimp only [do_popular]
    repeat (first | rfl | split)
  · intro conn s arg r
    dsimp only [do_mutuals]
    repeat (first | rfl | split)
  · intro s r
    dsimp only [do_debug_mutual_pairs]
    repeat (first | rfl | split)
  · intro conn s arg ui pw h
    dsimp only [do_login]
    repeat (first | rfl | split)
  · intro s pw cpw cf dR h
    dsimp only [do_delete]
    repeat (first | rfl | split)
  · intro s pw cpw cf cR h
    dsimp only [do_delete]
    repeat (first | rfl | split)
  · intro s ui pw h h1 h2
    simp [do_login, h1, h2]
  · intro s pw cpw h r rs h1 h2
    simp [do_delete, h1, h2]
  · intro s uI nI eI pw h uR eR hu huR hm heR hpw
    rcases huR with h' | h' <;> rcases heR with h'' | h'' <;> subst h' <;>
      subst h'' <;> simp [do_register, hu, hm, hpw]
  · intro s c n h r rs h1 h2
    simp [do_change_password, h1, h2]
  · intro s nI eI bI ecR uR h1
    simp [do_edit_profile, h1]
  · intro s arg aR cR h1 h2 h3
    simp [do_follow, h1, h2, h3]
  · intro s arg aR u us h1 h2 h3 h4
    rcases h4 with h' | h' <;> subst h' <;> simp [do_follow, h1, h2, h3]
  · intro s arg confirm k ks h1 h2 h3
    simp [do_unfollow, h1, h2, h3]
  · intro s h1
    simp [do_recommendations, h1]

/-- Witness for `query_failure_session_and_reporting`. -/
theorem query_failure_session_and_reporting_witness :
    (do_follow true ⟨some "alice", "alice> "⟩ "bob" (some [()]) (some []) none).1 =
      ⟨some "alice", "alice> "⟩ ∧
    do_login true ⟨none, "socli> "⟩ "" "alice" "pw" none id =
      (⟨none, "socli> "⟩,
       [Effect.promptLine "Username: ", Effect.promptSecret "Password: ",
        Effect.query (Query.matchCredentials "alice" "pw"),
        Effect.print "Invalid username or password."]) ∧
    do_follow true ⟨some "alice", "alice> "⟩ "bob" (some [()]) (some []) none =
      (⟨some "alice", "alice> "⟩,
       [Effect.query (Query.matchUserByUsername "bob"),
        Effect.query (Query.matchFollowsEdge "alice" "bob"),
        Effect.query (Query.createFollows "alice" "bob"),
        Effect.print ("You're now following " ++ "bob" ++ ".")]) := by
  obtain ⟨h1, h2, h3, h4, h5, h6, h7, h8, h9, h10, h11, h12, h13, h14, h15,
    h16, h17, h18, h19, h20, h21, h22, h23, h24, h25⟩ :=
    query_failure_session_and_reporting
  exact ⟨h5 true ⟨some "alice", "alice> "⟩ "bob" (some [()]) (some []) none,
    h17 ⟨none, "socli> "⟩ "alice" "pw" id (by decide) (by decide),
    h23 ⟨some "alice", "alice> "⟩ "bob" (some []) () [] (by decide) (by decide)
      (by decide) (Or.inr rfl)⟩
